import Mathlib

/-!
Shallow embedding of the rs-simple-logging library (src/src/lib.rs,
src/src/write.rs, src/src/copy.rs, src/src/proxy/copy.rs,
src/src/serialize.rs) and of the LTSV example program
(src/examples/ltsv/src/main.rs).

Modelling conventions:
- `u8` ranks and points in time (`SystemTime` / `Instant`, in an
  unspecified unit) are `Nat`; `Instant::saturating_duration_since`
  becomes truncated `Nat` subtraction, which saturates at zero just
  like the original.
- A writer's side effect (lines printed to stdout/stderr, or calls
  delegated to an inner writer) is returned as an explicit list of
  events; the empty list is the silent no-op.
- A `BTreeMap` appears only through the operations the code performs
  on it (ordered iteration, lookup by key, insert-or-replace), so it
  is modelled as an association list with those operations.
- `Mutex::lock` outcomes are an explicit `lockOk : Bool` argument:
  `false` is the poisoned/unavailable case, in which the code does
  nothing (`Err(_) => {}`).
- `FnMut` closures holding state (the example's `rate_limiter`) are
  modelled by explicit state passing: the captured map goes in and
  the updated map comes out.
-/

/-- `Severity` enum from src/src/lib.rs. -/
inductive Severity where
  | trace
  | debug
  | info
  | warn
  | error
  | fatal
deriving DecidableEq

/-- `impl From<u8> for Severity` (src/src/lib.rs lines 21-33): match on
numeric ranges `1..=4`, `5..=8`, `9..=12`, `13..=16`, `17..=20`,
`21..=24`, with the wildcard arm mapping everything else to `Fatal`. -/
def severity_from_u8 (num : Nat) : Severity :=
  if 1 ≤ num ∧ num ≤ 4 then .trace
  else if 5 ≤ num ∧ num ≤ 8 then .debug
  else if 9 ≤ num ∧ num ≤ 12 then .info
  else if 13 ≤ num ∧ num ≤ 16 then .warn
  else if 17 ≤ num ∧ num ≤ 20 then .error
  else if 21 ≤ num ∧ num ≤ 24 then .fatal
  else .fatal

/-- `impl From<Severity> for u8` (src/src/lib.rs lines 35-46). -/
def severity_to_u8 : Severity → Nat
  | .trace => 1
  | .debug => 5
  | .info => 9
  | .warn => 13
  | .error => 17
  | .fatal => 21

/-- `Severity::as_str` (src/src/lib.rs). -/
def Severity.as_str : Severity → String
  | .trace => "trace"
  | .debug => "debug"
  | .info => "info"
  | .warn => "warn"
  | .error => "error"
  | .fatal => "fatal"

/-- `Item` struct from src/src/lib.rs. `attributes` and `resource` are
`BTreeMap<String, String>` in the source, modelled as association
lists in the map's (sorted-key) iteration order. -/
structure Item where
  timestamp : Nat
  severity : Severity
  body : String
  attributes : List (String × String)
  resource : List (String × String)
  trace_id : Option String
  span_id : Option String
deriving DecidableEq

/-- Lines printed by the default console writer go to one of the two
standard streams. -/
inductive OutStream where
  | stdout
  | stderr
deriving DecidableEq

/-- The observable effect of a console writer: the list of
(stream, line) pairs it printed, in order. -/
abbrev ConsoleOutput := List (OutStream × String)

/-- `FnWrite::write` (src/src/write.rs lines 57-68): run `check_level`
on the severity; on `false` do nothing, on `true` call the internal
writer with the same serialized text and severity. The internal
writer's effect is a list of events of some type `ω`. -/
def fnWrite_write {ω : Type} (internal : String → Severity → List ω)
    (check_level : Severity → Bool)
    (serialized : String) (level : Severity) : List ω :=
  match check_level level with
  | false => []
  | true => internal serialized level

/-- `level_checker_from_lower_bound` (src/src/write.rs lines 121-129):
accept a severity iff `rank(lower_bound) <= rank(severity)`. -/
def level_checker_from_lower_bound (lb_inclusive : Severity) : Severity → Bool :=
  let lbi : Nat := severity_to_u8 lb_inclusive
  fun level => decide (lbi ≤ severity_to_u8 level)

/-- The console-routing closure used both by
`log_writer_new_std_default_from_fn` (src/src/write.rs) and by the
example's `ltsv_writer` (src/examples/ltsv/src/main.rs lines 52-65):
`println!` for Trace/Debug/Info, `eprintln!` for Warn/Error/Fatal;
each call prints one line. -/
def std_default_write (serialized : String) (level : Severity) : ConsoleOutput :=
  match level with
  | .trace => [(.stdout, serialized)]
  | .debug => [(.stdout, serialized)]
  | .info => [(.stdout, serialized)]
  | .warn => [(.stderr, serialized)]
  | .error => [(.stderr, serialized)]
  | .fatal => [(.stderr, serialized)]

/-- An inner writer that records each delegated call verbatim; used to
observe exactly which calls a wrapper forwards to its inner writer. -/
def recorder_write (serialized : String) (level : Severity) : List (String × Severity) :=
  [(serialized, level)]

/-- The mutable state captured by the example's `rate_limiter` closure:
`BTreeMap<Severity, Instant>`, as an association list. -/
abbrev RLState := List (Severity × Nat)

/-- `BTreeMap::get` on the rate-limiter state. -/
def rl_lookup (state : RLState) (level : Severity) : Option Nat :=
  match state with
  | [] => none
  | (k, v) :: rest => if k = level then some v else rl_lookup rest level

/-- `BTreeMap::insert` on the rate-limiter state: replace the value for
an existing key, otherwise add the entry. -/
def rl_insert (state : RLState) (level : Severity) (now : Nat) : RLState :=
  match state with
  | [] => [(level, now)]
  | (k, v) :: rest =>
    if k = level then (level, now) :: rest else (k, v) :: rl_insert rest level now

/-- `rate_limiter` (src/examples/ltsv/src/main.rs lines 35-50), one
step of the `FnMut(Severity) -> bool` closure: look up the previous
emission instant for this severity, compute the saturating duration
since it, permit iff there is no previous emission or the duration
strictly exceeds `min_duration`; on permission record `now` for this
severity. Returns (permitted, updated state). -/
def rate_limiter (min_duration : Nat) (now : Nat) (state : RLState)
    (level : Severity) : Bool × RLState :=
  let prev : Option Nat := rl_lookup state level
  let duration : Option Nat := prev.map (fun i => now - i)
  let available : Bool := (duration.map (fun d => decide (min_duration < d))).getD true
  match available with
  | true => (true, rl_insert state level now)
  | false => (false, state)

/-- `LimitedWrite::write` (src/src/write.rs lines 21-33) instantiated
with the example's `rate_limiter` as the `FnMut` state: lock the state
mutex (on failure do nothing and leave the state alone), run the
rate-limiter predicate, and delegate to the inner writer only when it
permits. Returns (inner-writer events, updated rate-limiter state). -/
def limitedWrite_write {ω : Type} (inner : String → Severity → List ω)
    (min_duration : Nat) (lockOk : Bool) (now : Nat) (state : RLState)
    (serialized : String) (level : Severity) : List ω × RLState :=
  match lockOk with
  | false => ([], state)
  | true =>
    let r := rate_limiter min_duration now state level
    match r.1 with
    | true => (inner serialized level, r.2)
    | false => ([], r.2)

/-- `ltsv_serializer` (src/examples/ltsv/src/main.rs lines 20-33):
`level:<name>`, then `\tattr.<key>:<value>` per attribute in map
order, then `\t<key>:<value>` per resource entry in map order, then
`\tmsg:<body>`, all appended to the output buffer. -/
def ltsv_serialize_item (i : Item) : String :=
  "level:" ++ i.severity.as_str
    ++ String.join (i.attributes.map (fun p => "\tattr." ++ p.1 ++ ":" ++ p.2))
    ++ String.join (i.resource.map (fun p => "\t" ++ p.1 ++ ":" ++ p.2))
    ++ "\tmsg:" ++ i.body

/-- `proxy_join` (src/src/proxy/copy.rs lines 39-48): apply `p`, feed
its output to `q`. A `Proxy` is its `get_item : Item -> Item`. -/
def proxy_join (p q : Item → Item) : Item → Item :=
  fun original => q (p original)

/-- `BTreeMap::get` on a `BTreeMap<String, String>`. -/
def rp_lookup (m : List (String × String)) (name : String) : Option String :=
  match m with
  | [] => none
  | (k, v) :: rest => if k = name then some v else rp_lookup rest name

/-- `resource_proxy_new_from_map` (src/src/proxy/copy.rs):
`get_resource` is `BTreeMap::get` on the captured map. -/
def resource_proxy_from_map (internal : List (String × String)) : String → Option String :=
  fun name => rp_lookup internal name

/-- `proxy_new_from_resource_proxy` (src/src/proxy/copy.rs lines
75-93): for each existing resource entry, if the resource proxy
returns a value for its key, overwrite the value; otherwise keep the
entry. -/
def proxy_new_from_resource_proxy (get_resource : String → Option String)
    (original : Item) : Item :=
  { original with
    resource := original.resource.map (fun p =>
      match get_resource p.1 with
      | none => p
      | some v => (p.1, v)) }

/-- `WriteSerialized::log` (src/src/copy.rs lines 62-67): serialize the
item into a fresh buffer, then write the buffer with the item's
severity. -/
def writeSerialized_log (serialize : Item → String)
    (write : String → Severity → ConsoleOutput) (item : Item) : ConsoleOutput :=
  write (serialize item) item.severity

/-- `logger_new_from_proxy` (src/src/copy.rs): transform the item with
the proxy, then delegate to the original logger. -/
def logger_new_from_proxy {ω : Type} (original : Item → List ω)
    (proxy : Item → Item) : Item → List ω :=
  fun old => original (proxy old)

/-- `impl Logger for Option<&dyn Logger>` (src/src/copy.rs lines
84-90): `None` does nothing, `Some` delegates. -/
def optionLogger_log {ω : Type} (logger : Option (Item → List ω)) (item : Item) : List ω :=
  match logger with
  | none => []
  | some l => l item

/-- `impl Logger for Mutex<Option<&dyn Logger>>` (src/src/copy.rs lines
92-102): a failed lock does nothing; a successful lock dispatches to
the optional logger inside. -/
def mutexLogger_log {ω : Type} (lockOk : Bool) (logger : Option (Item → List ω))
    (item : Item) : List ω :=
  match lockOk with
  | false => []
  | true => optionLogger_log logger item

/-- `_log` (src/src/copy.rs lines 113-116): stamp the current time into
the item's timestamp, then dispatch through the registry mutex. -/
def _log {ω : Type} (lockOk : Bool) (logger : Option (Item → List ω))
    (now : Nat) (item : Item) : List ω :=
  mutexLogger_log lockOk logger { item with timestamp := now }

/-- `log_trace` (src/src/copy.rs): set severity, then `_log`. -/
def log_trace {ω : Type} (lockOk : Bool) (logger : Option (Item → List ω))
    (now : Nat) (item : Item) : List ω :=
  _log lockOk logger now { item with severity := .trace }

/-- `log_debug` (src/src/copy.rs): set severity, then `_log`. -/
def log_debug {ω : Type} (lockOk : Bool) (logger : Option (Item → List ω))
    (now : Nat) (item : Item) : List ω :=
  _log lockOk logger now { item with severity := .debug }

/-- `log_info` (src/src/copy.rs): set severity, then `_log`. -/
def log_info {ω : Type} (lockOk : Bool) (logger : Option (Item → List ω))
    (now : Nat) (item : Item) : List ω :=
  _log lockOk logger now { item with severity := .info }

/-- `log_warn` (src/src/copy.rs): set severity, then `_log`. -/
def log_warn {ω : Type} (lockOk : Bool) (logger : Option (Item → List ω))
    (now : Nat) (item : Item) : List ω :=
  _log lockOk logger now { item with severity := .warn }

/-- `log_error` (src/src/copy.rs): set severity, then `_log`. -/
def log_error {ω : Type} (lockOk : Bool) (logger : Option (Item → List ω))
    (now : Nat) (item : Item) : List ω :=
  _log lockOk logger now { item with severity := .error }

/-- `log_fatal` (src/src/copy.rs): set severity, then `_log`. -/
def log_fatal {ω : Type} (lockOk : Bool) (logger : Option (Item → List ω))
    (now : Nat) (item : Item) : List ω :=
  _log lockOk logger now { item with severity := .fatal }

/-! Fixed values used by the end-to-end scenario of the spec: the
resource-substitution lookup mapping "service.name" to "svc", the
Logger composed as in §8 of the spec (proxied resource substitution
over the LTSV serializer and a console writer with lower bound Info),
and the Item with body "ready", no attributes, and declared resource
key "service.name". -/

/-- The end-to-end scenario's Logger: `logger_new_from_proxy` over
`logger_new(ltsv_serializer, gated console writer with lower bound
Info)`, the proxy substituting "service.name" from the map. -/
def ltsv_example_logger : Item → ConsoleOutput :=
  logger_new_from_proxy
    (writeSerialized_log ltsv_serialize_item
      (fnWrite_write std_default_write (level_checker_from_lower_bound .info)))
    (proxy_new_from_resource_proxy (resource_proxy_from_map [("service.name", "svc")]))

/-- The end-to-end scenario's Item: body "ready", no attributes,
declared resource key "service.name" with an empty placeholder. -/
def ready_item : Item :=
  { timestamp := 0
  , severity := .trace
  , body := "ready"
  , attributes := []
  , resource := [("service.name", "")]
  , trace_id := none
  , span_id := none }

/-- C6: each Severity variant maps to rank 1, 5, 9, 13, 17, 21 (Trace,
Debug, Info, Warn, Error, Fatal); the ranks are strictly increasing in
enumeration order; and mapping a variant to its rank and back is the
identity. -/
theorem severity_rank_constants_mono_roundtrip :
    (severity_to_u8 .trace = 1 ∧ severity_to_u8 .debug = 5 ∧
     severity_to_u8 .info = 9 ∧ severity_to_u8 .warn = 13 ∧
     severity_to_u8 .error = 17 ∧ severity_to_u8 .fatal = 21) ∧
    (severity_to_u8 .trace < severity_to_u8 .debug ∧
     severity_to_u8 .debug < severity_to_u8 .info ∧
     severity_to_u8 .info < severity_to_u8 .warn ∧
     severity_to_u8 .warn < severity_to_u8 .error ∧
     severity_to_u8 .error < severity_to_u8 .fatal) ∧
    (∀ s : Severity, severity_from_u8 (severity_to_u8 s) = s) := by
  refine ⟨by decide, by decide, ?_⟩
  intro s
  cases s <;> rfl

set_option maxRecDepth 4096 in
/-- C5: for every 8-bit rank, reconstruction maps 1-4 to Trace, 5-8 to
Debug, 9-12 to Info, 13-16 to Warn, 17-20 to Error, 21 and above to
Fatal, and any value outside the sub-ranges (such as 0) to Fatal. -/
theorem severity_from_u8_buckets :
    ∀ n : Fin 256,
      ((1 ≤ n.val ∧ n.val ≤ 4) → severity_from_u8 n.val = .trace) ∧
      ((5 ≤ n.val ∧ n.val ≤ 8) → severity_from_u8 n.val = .debug) ∧
      ((9 ≤ n.val ∧ n.val ≤ 12) → severity_from_u8 n.val = .info) ∧
      ((13 ≤ n.val ∧ n.val ≤ 16) → severity_from_u8 n.val = .warn) ∧
      ((17 ≤ n.val ∧ n.val ≤ 20) → severity_from_u8 n.val = .error) ∧
      (21 ≤ n.val → severity_from_u8 n.val = .fatal) ∧
      (n.val = 0 → severity_from_u8 n.val = .fatal) := by
  decide

/-- Witness for C5: the bucket theorem applied at the concrete ranks 0,
3, 10 and 255. -/
theorem severity_from_u8_buckets_witness :
    severity_from_u8 0 = .fatal ∧ severity_from_u8 3 = .trace ∧
    severity_from_u8 10 = .info ∧ severity_from_u8 255 = .fatal :=
  ⟨(severity_from_u8_buckets 0).2.2.2.2.2.2 rfl,
   (severity_from_u8_buckets 3).1 (by decide),
   (severity_from_u8_buckets 10).2.2.1 (by decide),
   (severity_from_u8_buckets 255).2.2.2.2.2.1 (by decide)⟩

/-- C7: proxy sequencing via proxy_join is associative: for all proxies
p, q, r and every input Item, (p then q) then r produces the same
output Item as p then (q then r). -/
theorem proxy_join_assoc (p q r : Item → Item) (item : Item) :
    proxy_join (proxy_join p q) r item = proxy_join p (proxy_join q r) item :=
  rfl

/-- C8: a severity-gated writer with inclusive lower bound B never
invokes the inner writer when the call's severity has rank below
rank(B), and always invokes it, with the same serialized text and
severity unchanged, when the rank is at least rank(B). The inner
writer records every call it receives. -/
theorem gated_writer_lower_bound (B : Severity) (serialized : String) (level : Severity) :
    (severity_to_u8 level < severity_to_u8 B →
      fnWrite_write recorder_write (level_checker_from_lower_bound B) serialized level = []) ∧
    (severity_to_u8 B ≤ severity_to_u8 level →
      fnWrite_write recorder_write (level_checker_from_lower_bound B) serialized level =
        [(serialized, level)]) := by
  constructor
  · intro h
    simp [fnWrite_write, level_checker_from_lower_bound, Nat.not_le_of_lt h]
  · intro h
    simp [fnWrite_write, level_checker_from_lower_bound, h, recorder_write]

/-- Witness for C8: with lower bound Info, a Debug call is dropped and
a Fatal call is delegated with text and severity unchanged. -/
theorem gated_writer_lower_bound_witness :
    fnWrite_write recorder_write (level_checker_from_lower_bound .info) "x" .debug = [] ∧
    fnWrite_write recorder_write (level_checker_from_lower_bound .info) "x" .fatal =
      [("x", Severity.fatal)] :=
  ⟨(gated_writer_lower_bound .info "x" .debug).1 (by decide),
   (gated_writer_lower_bound .info "x" .fatal).2 (by decide)⟩

/-- C2: end-to-end: with the Logger composed as a resource-substitution
proxy (mapping "service.name" to "svc") over a direct Logger using the
LTSV serializer and a console writer with lower bound Info, the
Info-level dispatch of the Item with body "ready", no attributes and
declared resource key "service.name" prints exactly the line
level:info\tservice.name:svc\tmsg:ready on standard output, and the
Debug-level dispatch of the same Item prints nothing. -/
theorem ltsv_end_to_end :
    log_info true (some ltsv_example_logger) 42 ready_item =
      [(OutStream.stdout, "level:info\tservice.name:svc\tmsg:ready")] ∧
    log_debug true (some ltsv_example_logger) 42 ready_item = [] := by
  constructor <;> rfl

/-- C9: each per-severity dispatch function forwards to the installed
Logger an Item whose timestamp is overwritten with the current time
and whose severity is the called level, while body, attributes,
resource, trace_id and span_id are exactly those of the caller's Item.
The installed Logger here records the Item it receives. -/
theorem dispatch_stamps_time_and_severity (now : Nat) (item : Item) :
    log_trace true (some (fun i => [i])) now item =
      [{ timestamp := now, severity := .trace, body := item.body,
         attributes := item.attributes, resource := item.resource,
         trace_id := item.trace_id, span_id := item.span_id }] ∧
    log_debug true (some (fun i => [i])) now item =
      [{ timestamp := now, severity := .debug, body := item.body,
         attributes := item.attributes, resource := item.resource,
         trace_id := item.trace_id, span_id := item.span_id }] ∧
    log_info true (some (fun i => [i])) now item =
      [{ timestamp := now, severity := .info, body := item.body,
         attributes := item.attributes, resource := item.resource,
         trace_id := item.trace_id, span_id := item.span_id }] ∧
    log_warn true (some (fun i => [i])) now item =
      [{ timestamp := now, severity := .warn, body := item.body,
         attributes := item.attributes, resource := item.resource,
         trace_id := item.trace_id, span_id := item.span_id }] ∧
    log_error true (some (fun i => [i])) now item =
      [{ timestamp := now, severity := .error, body := item.body,
         attributes := item.attributes, resource := item.resource,
         trace_id := item.trace_id, span_id := item.span_id }] ∧
    log_fatal true (some (fun i => [i])) now item =
      [{ timestamp := now, severity := .fatal, body := item.body,
         attributes := item.attributes, resource := item.resource,
         trace_id := item.trace_id, span_id := item.span_id }] := by
  refine ⟨rfl, rfl, rfl, rfl, rfl, rfl⟩

/-- C3: for every Item, a per-severity dispatch call when no Logger is
installed, or when the registry lock cannot be acquired, produces no
output at all: the event is dropped and, the dispatch functions being
total, no error or panic reaches the caller. -/
theorem dispatch_silent_noop (lockOk : Bool) (logger : Option (Item → ConsoleOutput))
    (now : Nat) (item : Item) (h : logger = none ∨ lockOk = false) :
    log_trace lockOk logger now item = [] ∧
    log_debug lockOk logger now item = [] ∧
    log_info lockOk logger now item = [] ∧
    log_warn lockOk logger now item = [] ∧
    log_error lockOk logger now item = [] ∧
    log_fatal lockOk logger now item = [] := by
  rcases h with h | h
  · subst h
    cases lockOk <;>
      simp [log_trace, log_debug, log_info, log_warn, log_error, log_fatal,
        _log, mutexLogger_log, optionLogger_log]
  · subst h
    simp [log_trace, log_debug, log_info, log_warn, log_error, log_fatal,
      _log, mutexLogger_log, optionLogger_log]

/-- Witness for C3: with the registry lock available but no Logger
installed, dispatching ready_item at every level produces nothing. -/
theorem dispatch_silent_noop_witness :
    log_trace true (none : Option (Item → ConsoleOutput)) 0 ready_item = [] ∧
    log_debug true (none : Option (Item → ConsoleOutput)) 0 ready_item = [] ∧
    log_info true (none : Option (Item → ConsoleOutput)) 0 ready_item = [] ∧
    log_warn true (none : Option (Item → ConsoleOutput)) 0 ready_item = [] ∧
    log_error true (none : Option (Item → ConsoleOutput)) 0 ready_item = [] ∧
    log_fatal true (none : Option (Item → ConsoleOutput)) 0 ready_item = [] :=
  dispatch_silent_noop true none 0 ready_item (Or.inl rfl)

/-- Mapping the substitution function over resource entries never
changes an entry's key. -/
theorem subst_map_fst (rp : String → Option String) (l : List (String × String)) :
    (l.map (fun p => match rp p.1 with | none => p | some v => (p.1, v))).map Prod.fst
      = l.map Prod.fst := by
  induction l with
  | nil => rfl
  | cons hd tl ih =>
    cases h : rp hd.1 <;> simp [h, ih]

/-- C4: the resource-substitution proxy overwrites the value of each
resource entry whose key the lookup resolves, keeps entries whose key
the lookup does not resolve, preserves the key list (so it never adds
a key, even one the lookup defines), and leaves every other Item field
unchanged. -/
theorem resource_proxy_substitution (rp : String → Option String) (item : Item) :
    (proxy_new_from_resource_proxy rp item).resource.map Prod.fst =
      item.resource.map Prod.fst ∧
    (∀ p ∈ item.resource, rp p.1 = none →
      p ∈ (proxy_new_from_resource_proxy rp item).resource) ∧
    (∀ p ∈ item.resource, ∀ v, rp p.1 = some v →
      (p.1, v) ∈ (proxy_new_from_resource_proxy rp item).resource) ∧
    (∀ k, k ∈ (proxy_new_from_resource_proxy rp item).resource.map Prod.fst →
      k ∈ item.resource.map Prod.fst) ∧
    (proxy_new_from_resource_proxy rp item).timestamp = item.timestamp ∧
    (proxy_new_from_resource_proxy rp item).severity = item.severity ∧
    (proxy_new_from_resource_proxy rp item).body = item.body ∧
    (proxy_new_from_resource_proxy rp item).attributes = item.attributes ∧
    (proxy_new_from_resource_proxy rp item).trace_id = item.trace_id ∧
    (proxy_new_from_resource_proxy rp item).span_id = item.span_id := by
  refine ⟨subst_map_fst rp item.resource, ?_, ?_, ?_, rfl, rfl, rfl, rfl, rfl, rfl⟩
  · intro p hp h
    have hm := List.mem_map_of_mem
      (fun q => match rp q.1 with | none => q | some v => (q.1, v)) hp
    simpa [proxy_new_from_resource_proxy, h] using hm
  · intro p hp v h
    have hm := List.mem_map_of_mem
      (fun q => match rp q.1 with | none => q | some v => (q.1, v)) hp
    simpa [proxy_new_from_resource_proxy, h] using hm
  · intro k hk
    rw [show (proxy_new_from_resource_proxy rp item).resource.map Prod.fst
        = item.resource.map Prod.fst from subst_map_fst rp item.resource] at hk
    exact hk

/-- The spec's substitution example: an Item whose resource mapping
declares keys "a" and "b" with empty placeholders. -/
def item_ab : Item :=
  { timestamp := 0
  , severity := .trace
  , body := "m"
  , attributes := []
  , resource := [("a", ""), ("b", "")]
  , trace_id := none
  , span_id := none }

/-- Witness for C4: with a lookup providing "a" to "X" (and also "c" to
"Z"), the substituted Item keeps exactly the keys ["a", "b"], with
entry ("a", "X") overwritten and entry ("b", "") untouched. -/
theorem resource_proxy_substitution_witness :
    ("a", "X") ∈ (proxy_new_from_resource_proxy
      (resource_proxy_from_map [("a", "X"), ("c", "Z")]) item_ab).resource ∧
    ("b", "") ∈ (proxy_new_from_resource_proxy
      (resource_proxy_from_map [("a", "X"), ("c", "Z")]) item_ab).resource ∧
    (proxy_new_from_resource_proxy
      (resource_proxy_from_map [("a", "X"), ("c", "Z")]) item_ab).resource.map Prod.fst
      = ["a", "b"] :=
  ⟨(resource_proxy_substitution (resource_proxy_from_map [("a", "X"), ("c", "Z")])
      item_ab).2.2.1 ("a", "") (by decide) "X" (by decide),
   (resource_proxy_substitution (resource_proxy_from_map [("a", "X"), ("c", "Z")])
      item_ab).2.1 ("b", "") (by decide) (by decide),
   ((resource_proxy_substitution (resource_proxy_from_map [("a", "X"), ("c", "Z")])
      item_ab).1).trans (by decide)⟩

/-- C1 counterexample: with minimum duration D = 5, two Info-level
calls from a fresh rate limiter at times 0 and 5 are separated by
exactly D — hence by "at least D" — yet while the first call is
delegated, the second delegates nothing to the inner writer, because
the code permits a call only when the separation strictly exceeds D
(`min_duration < d`). -/
theorem rate_limited_at_exactly_D_drops_second :
    (limitedWrite_write recorder_write 5 true 0 [] "x" .info).1 =
      [("x", Severity.info)] ∧
    (limitedWrite_write recorder_write 5 true 5
      (limitedWrite_write recorder_write 5 true 0 [] "x" .info).2 "x" .info).1 = [] := by
  constructor <;> rfl

/-- C1 (amended): for the rate-limited writer with minimum duration D,
starting from a fresh state: the first call is always delegated and
records its time for its severity before delegating; a second call at
the same severity is delegated exactly when the separation strictly
exceeds D (so a separation of at most D, including exactly D, yields
exactly one delegation); and a second call at a different severity is
always delegated, the cooldown being tracked per severity. -/
theorem rate_limited_write_behavior (D t1 t2 : Nat) (s1 s2 : String)
    (level lvl2 : Severity) :
    (limitedWrite_write recorder_write D true t1 [] s1 level).1 = [(s1, level)] ∧
    rl_lookup (limitedWrite_write recorder_write D true t1 [] s1 level).2 level
      = some t1 ∧
    ((limitedWrite_write recorder_write D true t2
        (limitedWrite_write recorder_write D true t1 [] s1 level).2 s2 level).1 =
      if D < t2 - t1 then [(s2, level)] else []) ∧
    (lvl2 ≠ level →
      (limitedWrite_write recorder_write D true t2
        (limitedWrite_write recorder_write D true t1 [] s1 level).2 s2 lvl2).1 =
        [(s2, lvl2)]) := by
  refine ⟨rfl, ?_, ?_, ?_⟩
  · simp [limitedWrite_write, rate_limiter, rl_lookup, rl_insert]
  · by_cases h : D < t2 - t1 <;>
      simp [limitedWrite_write, rate_limiter, rl_lookup, rl_insert,
        recorder_write, h]
  · intro h
    simp [limitedWrite_write, rate_limiter, rl_lookup, rl_insert,
      recorder_write, Ne.symm h]

/-- Witness for the amended C1: D = 5, first Info call at time 0 and
second at time 7 (separation 7, strictly more than D) — both calls are
delegated and the state records the first call's time; a Debug call at
time 7 from the same state is delegated as well. -/
theorem rate_limited_write_behavior_witness :
    (limitedWrite_write recorder_write 5 true 0 [] "a" .info).1 =
      [("a", Severity.info)] ∧
    rl_lookup (limitedWrite_write recorder_write 5 true 0 [] "a" .info).2 .info
      = some 0 ∧
    ((limitedWrite_write recorder_write 5 true 7
        (limitedWrite_write recorder_write 5 true 0 [] "a" .info).2 "b" .info).1 =
      if 5 < 7 - 0 then [("b", Severity.info)] else []) ∧
    (limitedWrite_write recorder_write 5 true 7
        (limitedWrite_write recorder_write 5 true 0 [] "a" .info).2 "b" .debug).1 =
      [("b", Severity.debug)] :=
  ⟨(rate_limited_write_behavior 5 0 7 "a" "b" .info .debug).1,
   (rate_limited_write_behavior 5 0 7 "a" "b" .info .debug).2.1,
   (rate_limited_write_behavior 5 0 7 "a" "b" .info .debug).2.2.1,
   (rate_limited_write_behavior 5 0 7 "a" "b" .info .debug).2.2.2 (by decide)⟩

/-- `ltsv_writer` (src/examples/ltsv/src/main.rs lines 52-65): the
rate-limited writer (minimum duration one unit, the example's 1 ms)
wrapping the console writer gated at lower bound Info. -/
def ltsv_writer_write (lockOk : Bool) (now : Nat) (state : RLState)
    (serialized : String) (level : Severity) : ConsoleOutput × RLState :=
  limitedWrite_write
    (fnWrite_write std_default_write (level_checker_from_lower_bound .info))
    1 lockOk now state serialized level

/-- Looking up a severity right after inserting it returns the inserted
time. -/
theorem rl_lookup_insert_self (st : RLState) (level : Severity) (now : Nat) :
    rl_lookup (rl_insert st level now) level = some now := by
  induction st with
  | nil => simp [rl_insert, rl_lookup]
  | cons hd tl ih =>
    obtain ⟨k, v⟩ := hd
    by_cases h : k = level <;> simp [rl_insert, rl_lookup, h, ih]

/-- When the rate limiter permits a call, its updated state is the old
state with the call's time recorded for the call's severity. -/
theorem rate_limiter_permitted_state (D now : Nat) (st : RLState) (level : Severity)
    (h : (rate_limiter D now st level).1 = true) :
    (rate_limiter D now st level).2 = rl_insert st level now := by
  unfold rate_limiter at h ⊢
  cases hl : rl_lookup st level with
  | none => simp [hl]
  | some i =>
    by_cases hd : D < now - i
    · simp [hl, hd]
    · simp [hl, hd] at h

/-- C10: in the example's composed writer — the rate limiter wrapping
the Info-gated console writer — the rate-limit decision and state
update happen before and independently of the severity gate: the state
a call leaves behind always equals the state left by the bare
rate-limiter step, and a permitted call whose severity rank is below
Info's rank still records now as its severity's last emission even
though the gated inner writer prints nothing. -/
theorem rate_limit_runs_before_gate (now : Nat) (st : RLState) (s : String)
    (level : Severity) :
    (ltsv_writer_write true now st s level).2 = (rate_limiter 1 now st level).2 ∧
    (severity_to_u8 level < severity_to_u8 .info →
      (rate_limiter 1 now st level).1 = true →
      (ltsv_writer_write true now st s level).1 = [] ∧
      rl_lookup (ltsv_writer_write true now st s level).2 level = some now) := by
  constructor
  · cases h : (rate_limiter 1 now st level).1 <;>
      simp [ltsv_writer_write, limitedWrite_write, h]
  · intro hlt hperm
    constructor
    · simp [ltsv_writer_write, limitedWrite_write, hperm, fnWrite_write,
        level_checker_from_lower_bound, Nat.not_le_of_lt hlt]
    · have hstate : (ltsv_writer_write true now st s level).2 =
          rl_insert st level now := by
        cases h : (rate_limiter 1 now st level).1 with
        | false => exact absurd h (by simp [hperm])
        | true =>
          have := rate_limiter_permitted_state 1 now st level h
          simpa [ltsv_writer_write, limitedWrite_write, h] using this
      rw [hstate]
      exact rl_lookup_insert_self st level now

/-- Witness for C10: a Trace-level call (rank 1, below Info's rank 9)
at time 3 from a fresh state prints nothing yet records time 3 as the
Trace severity's last emission, and the state matches the bare
rate-limiter step. -/
theorem rate_limit_runs_before_gate_witness :
    (ltsv_writer_write true 3 [] "x" .trace).2 = (rate_limiter 1 3 [] .trace).2 ∧
    (ltsv_writer_write true 3 [] "x" .trace).1 = [] ∧
    rl_lookup (ltsv_writer_write true 3 [] "x" .trace).2 .trace = some 3 :=
  ⟨(rate_limit_runs_before_gate 3 [] "x" .trace).1,
   ((rate_limit_runs_before_gate 3 [] "x" .trace).2 (by decide) (by decide)).1,
   ((rate_limit_runs_before_gate 3 [] "x" .trace).2 (by decide) (by decide)).2⟩
